import Mathlib

/-!
# Verification of the OpenData-style statistics indexer (`src/stats.ts`)

Shallow embedding of the statistics-aggregation engine in `src/stats.ts`:
field classification, batch planning (`chunk`), statistic-directive
construction (`stat` / the per-field `statsDefs` push), the merge of a flat
attribute map back into the typed output (the `for key in attrs` loop with
the `/(.+)_([a-z]+)$/` parse), the categorical grouped-count aggregation,
and the `getJson`-based orchestration `getOpenDataStyleStatistics`.

Modelling conventions:
* JSON values are the inductive `Json`; JS numbers are embedded as `Rat`
  (every JSON numeral is a rational; no claim exercises floating-point
  rounding).
* JS objects are insertion-ordered association lists of own properties
  (`alookup` / `aset`).  The truthiness checks of the source
  (`!output.X[name]`, `if (output.objectid[fieldName])`) also see
  inherited `Object.prototype` members; `truthyLookup` models that
  fallback via `objectPrototypeMembers`.  A write that lands on an
  inherited prototype member mutates a global function object outside the
  output value, which the bucket maps reflect as no change.  The JS
  `for..in` reordering of integer-like keys is outside the model
  (integer-like keys contain no underscore, so the merge loop skips them
  in any order).
* The stats records (`NumericStats` / `DateStats` in the source) are
  modelled as dynamic property maps `StatsRecord`, because the merge loop
  writes `(record as any)[statType] = value` for an arbitrary parsed
  suffix, not only the five declared statistic fields.
* Asynchrony, the 500 ms `sleep`, and real time are not modelled; the
  sequential `await` chain is modelled as sequential composition, the
  remote server as a function `fetch : String → HttpResponse`, and the
  `httpRequestCount` diagnostics counter as the list of requested URLs
  (its length is the counter).
* JS dynamic type errors (e.g. `fields.filter` when `fields` is not an
  array, `f.attributes[name]` when `attributes` is missing) are modelled
  as `Except.error` shape errors, matching that in JS they abort the whole
  computation; their exact messages are not load-bearing for any claim.
-/

namespace FsStats

/-- JSON values, as produced by `res.json()`.  Numbers are rationals. -/
inductive Json where
  | null : Json
  | bool : Bool → Json
  | num : Rat → Json
  | str : String → Json
  | arr : List Json → Json
  | obj : List (String × Json) → Json
deriving Repr

/-- Own-property lookup on a JS object (first binding wins; JS objects have
unique keys, which all constructions below preserve). -/
def alookup {β : Type} : List (String × β) → String → Option β
  | [], _ => none
  | (k', v) :: rest, k => if k' == k then some v else alookup rest k

/-- JS property assignment `o[k] = v`: an existing key keeps its position,
a new key is appended at the end (insertion order). -/
def aset {β : Type} : List (String × β) → String → β → List (String × β)
  | [], k, v => [(k, v)]
  | (k', v') :: rest, k, v =>
    if k' == k then (k', v) :: rest else (k', v') :: aset rest k v

/-- Field schema info from the ArcGIS layer (`FieldInfo` in the source). -/
structure FieldInfo where
  name : String
  type : String
deriving DecidableEq, Repr

/-- The four numeric type tags tested by `isNumeric` (lines 142-146) and by
the `numericOrDateOrObjectIdFields` filter (lines 113-116). -/
def isNumericType (t : String) : Bool :=
  t == "esriFieldTypeInteger" ||
  t == "esriFieldTypeSmallInteger" ||
  t == "esriFieldTypeDouble" ||
  t == "esriFieldTypeSingle"

/-- The filter predicate of `numericOrDateOrObjectIdFields` (lines 110-120). -/
def numericOrDateOrObjectIdPred (f : FieldInfo) : Bool :=
  isNumericType f.type ||
  f.type == "esriFieldTypeDate" ||
  f.type == "esriFieldTypeOID"

/-- The five statistic categories of the spec's `FieldCategory`. -/
inductive FieldCategory where
  | Numeric | Temporal | RowIdentifier | Categorical | Unsupported
deriving DecidableEq, Repr

/-- Field classification, read off the source's conditionals: the
`isObjectId` / `isNumeric` / `isDate` branch order of lines 141-168
(OID tested first) together with the string-field filter of line 200;
every tag matching none of them is ignored by both passes. -/
def classify (t : String) : FieldCategory :=
  if t == "esriFieldTypeOID" then .RowIdentifier
  else if isNumericType t then .Numeric
  else if t == "esriFieldTypeDate" then .Temporal
  else if t == "esriFieldTypeString" then .Categorical
  else .Unsupported

/-- `chunk` (lines 123-129): split `arr` into contiguous slices
`arr.slice(i, i + size)` for `i = 0, size, 2*size, ...`.  The JS loop
diverges when `size = 0` and `arr` is non-empty (`i += 0`); the model
returns `[]` there, and every claim about `chunk` assumes `size ≥ 1`. -/
def chunk {α : Type} (arr : List α) (size : Nat) : List (List α) :=
  if _h : size = 0 then []
  else
    match arr with
    | [] => []
    | a :: rest => (a :: rest).take size :: chunk ((a :: rest).drop size) size
termination_by arr.length
decreasing_by
  simp only [List.length_drop, List.length_cons]
  omega

/-- One `outStatistics` entry (the `stat` helper, lines 75-81). -/
structure StatDirective where
  statisticType : String
  onStatisticField : String
  outStatisticFieldName : String
deriving DecidableEq, Repr

/-- The `stat` helper (lines 75-81). -/
def stat (type field output : String) : StatDirective :=
  { statisticType := type, onStatisticField := field, outStatisticFieldName := output }

/-- The statistic directives pushed for one field of a batch
(lines 149-168): five (`min,max,avg,sum,count`) for an OID or numeric
field, three (`min,max,count`) for a date field, none otherwise. -/
def directivesFor (field : FieldInfo) : List StatDirective :=
  let name := field.name
  if field.type == "esriFieldTypeOID" then
    [stat "min" name (name ++ "_min"), stat "max" name (name ++ "_max"),
     stat "avg" name (name ++ "_avg"), stat "sum" name (name ++ "_sum"),
     stat "count" name (name ++ "_count")]
  else if isNumericType field.type then
    [stat "min" name (name ++ "_min"), stat "max" name (name ++ "_max"),
     stat "avg" name (name ++ "_avg"), stat "sum" name (name ++ "_sum"),
     stat "count" name (name ++ "_count")]
  else if field.type == "esriFieldTypeDate" then
    [stat "min" name (name ++ "_min"), stat "max" name (name ++ "_max"),
     stat "count" name (name ++ "_count")]
  else []

/-- A per-field stats accumulator (`NumericStats` / `DateStats` in the
source), modelled as a dynamic property map: the merge loop writes
`(record as any)[statType] = value` for whatever lowercase suffix parses
out of the key. -/
abbrev StatsRecord := List (String × Json)

/-- One bucket of the output (`Record<string, NumericStats>` etc.). -/
abbrev Bucket := List (String × StatsRecord)

/-- One `(value, count)` row of a string field's distinct-value table
(`StringStatsValue`).  `none` models JS `undefined` (absent key). -/
structure StringStatsValue where
  value : Option Json
  count : Option Json
deriving Repr

/-- Statistics for string fields (`StringStats`). -/
structure StringStats where
  values : List StringStatsValue
  count : Json
  uniqueCount : Nat
deriving Repr

/-- The main output structure (`OpenDataStatistics`, lines 39-44). -/
structure OpenDataStatistics where
  numeric : Bucket
  string : List (String × StringStats)
  date : Bucket
  objectid : Bucket
deriving Repr

/-- The empty output root built at lines 101-106. -/
def emptyStats : OpenDataStatistics :=
  { numeric := [], string := [], date := [], objectid := [] }

/-- `STATS_BATCH_SIZE` (line 109). -/
def STATS_BATCH_SIZE : Nat := 1

/-! ## The key parse `/(.+)_([a-z]+)$/` (line 183)

Because `([a-z]+)` must run to the end of the string, the only candidate
separator is the *last* underscore of the key (any earlier underscore has a
suffix containing that last underscore, which is not a lowercase letter).
`(.+)` is JS dot, which excludes the four line terminators; the regex
engine takes the leftmost start, so `match[1]` is the longest
terminator-free run ending just before the separator, and the match exists
iff that run is non-empty and the suffix after the separator is a
non-empty all-lowercase run. -/

/-- Lowercase ASCII letter, the `[a-z]` class. -/
def isLowerAZ (c : Char) : Bool := 'a' ≤ c && c ≤ 'z'

/-- The four JS line terminators, which `.` does not match. -/
def isLineTerminator (c : Char) : Bool :=
  c == Char.ofNat 10 || c == Char.ofNat 13 ||
  c == Char.ofNat 0x2028 || c == Char.ofNat 0x2029

/-- Longest suffix free of line terminators (what `(.+)` can cover,
anchored right before the separator). -/
def lastDotRun (cs : List Char) : List Char :=
  cs.foldl (fun acc c => if isLineTerminator c then [] else acc ++ [c]) []

/-- Split a character list at its last underscore:
`splitLastUnderscore (xs ++ '_' :: ys) = some (xs, ys)` when `ys` is
underscore-free; `none` when there is no underscore. -/
def splitLastUnderscore : List Char → Option (List Char × List Char)
  | [] => none
  | c :: rest =>
    match splitLastUnderscore rest with
    | some (pre, suf) => some (c :: pre, suf)
    | none => if c == '_' then some ([], rest) else none

/-- `key.match(/(.+)_([a-z]+)$/)` (line 183), returning
`(match[1], match[2])`, i.e. the parsed `(fieldName, statType)`. -/
def matchKey (key : String) : Option (String × String) :=
  match splitLastUnderscore key.toList with
  | none => none
  | some (pre, suf) =>
    if !suf.isEmpty && suf.all isLowerAZ && !(lastDotRun pre).isEmpty then
      some ((lastDotRun pre).asString, suf.asString)
    else none

/-- The property names a plain object literal inherits from
`Object.prototype` (as on Node.js).  All of them are functions except the
accessor `__proto__`, which yields `Object.prototype` itself — so reading
any of them on a plain object that has no own property of that name is
truthy, not `undefined`. -/
def objectPrototypeMembers : List String :=
  ["constructor", "hasOwnProperty", "isPrototypeOf", "propertyIsEnumerable",
   "toLocaleString", "toString", "valueOf", "__proto__",
   "__defineGetter__", "__defineSetter__", "__lookupGetter__", "__lookupSetter__"]

/-- Whether a name collides with an inherited `Object.prototype` member. -/
def isProtoMember (name : String) : Bool := objectPrototypeMembers.contains name

/-- JS truthiness of `bucket[name]` for a bucket object: an own record is
always a plain object, hence truthy; with no own property the read falls
back to `Object.prototype`, whose members are all truthy; any other
absent name yields `undefined`, which is falsy. -/
def truthyLookup (b : Bucket) (name : String) : Bool :=
  (alookup b name).isSome || isProtoMember name

/-- JS property assignment `o[k] = v` on a plain object: for `k =
"__proto__"` the inherited accessor is invoked, which replaces the
receiver's prototype and creates no own property — on the own-property
map this is the identity (the program never reads the replaced prototype
again, and serialization ignores it); every other key, including the
other `Object.prototype` members (all writable data properties), creates
or updates the own property. -/
def jsAssign {β : Type} (l : List (String × β)) (k : String) (v : β) :
    List (String × β) :=
  if k == "__proto__" then l else aset l k v

/-- Write `value` under property `statType` of the record that `bucket`
holds for `fieldName`.  The merge loop reaches this after its truthiness
test: when the test was truthy only through an inherited
`Object.prototype` member (no own record), the JS write
`(output.X[fieldName])[statType] = value` mutates that inherited function
object — a global outside the output value — and leaves the bucket map
unchanged, which is the `none` branch here.  (`statType` is a `[a-z]+`
run, so it is never the accessor `__proto__` and plain `aset` is the
assignment on the record.) -/
def bucketWrite (b : Bucket) (fieldName statType : String) (value : Json) : Bucket :=
  match alookup b fieldName with
  | some r => aset b fieldName (aset r statType value)
  | none => b

/-- One iteration of the merge loop (lines 182-195): parse the key, then
write into the first of `objectid`, `numeric`, `date` whose lookup for the
parsed field name is truthy; otherwise skip.  The truthiness test
`if (output.objectid[fieldName])` also sees inherited `Object.prototype`
members: a parsed field name such as `"toString"` takes the `objectid`
branch even with no own record, and the write then lands on the inherited
prototype member (see `bucketWrite`), leaving every bucket unchanged. -/
def mergeKey (out : OpenDataStatistics) (key : String) (value : Json) : OpenDataStatistics :=
  match matchKey key with
  | none => out
  | some (fieldName, statType) =>
    if truthyLookup out.objectid fieldName then
      { out with objectid := bucketWrite out.objectid fieldName statType value }
    else if truthyLookup out.numeric fieldName then
      { out with numeric := bucketWrite out.numeric fieldName statType value }
    else if truthyLookup out.date fieldName then
      { out with date := bucketWrite out.date fieldName statType value }
    else out

/-- The whole merge loop `for key in attrs` (lines 182-195). -/
def mergeAttrs (out : OpenDataStatistics) (attrs : List (String × Json)) : OpenDataStatistics :=
  attrs.foldl (fun o kv => mergeKey o kv.1 kv.2) out

/-- `if (!output.<bucket>[name]) output.<bucket>[name] = {}`
(lines 150/157/164): create the empty record only when the lookup is
falsy.  The lookup sees inherited `Object.prototype` members as truthy,
so a field named e.g. `"toString"` never gets a record. -/
def ensureRecord (b : Bucket) (name : String) : Bucket :=
  if truthyLookup b name then b else b ++ [(name, [])]

/-- Processing of one field inside the `for (const field of batch)` loop
(lines 136-168): create the field's record in its bucket and append its
statistic directives. -/
def fieldStep (acc : OpenDataStatistics × List StatDirective) (field : FieldInfo) :
    OpenDataStatistics × List StatDirective :=
  let out := acc.1
  if field.type == "esriFieldTypeOID" then
    ({ out with objectid := ensureRecord out.objectid field.name },
      acc.2 ++ directivesFor field)
  else if isNumericType field.type then
    ({ out with numeric := ensureRecord out.numeric field.name },
      acc.2 ++ directivesFor field)
  else if field.type == "esriFieldTypeDate" then
    ({ out with date := ensureRecord out.date field.name },
      acc.2 ++ directivesFor field)
  else acc

/-- The record-creation / `statsDefs`-construction pass over one batch
(lines 135-169). -/
def processBatchDefs (out : OpenDataStatistics) (batch : List FieldInfo) :
    OpenDataStatistics × List StatDirective :=
  batch.foldl fieldStep (out, [])

/-- `resp?.features?.[0]?.attributes || {}` (line 179): the first row's
attribute map, or empty when the response has no rows or lacks the shape.
(A primitive or array in place of the attributes object is collapsed to
`[]`: its `for..in` keys are array indices, which contain no underscore
and are skipped by the merge loop anyway.) -/
def extractAttrs (resp : Json) : List (String × Json) :=
  match resp with
  | .obj props =>
    match alookup props "features" with
    | some (.arr (f :: _)) =>
      match f with
      | .obj fprops =>
        match alookup fprops "attributes" with
        | some (.obj attrs) => attrs
        | _ => []
      | _ => []
    | _ => []
  | _ => []

/-! ## Categorical (string-field) aggregation (lines 198-228) -/

/-- JS `sum + v.count` inside the `reduce` of line 225, for a numeric
running sum and a row count that is an attribute value (`none` models JS
`undefined`).  Only the number/number case occurs for well-formed grouped
responses; in the remaining cases JS coercion would produce `NaN` or a
concatenated string — no claim exercises them and the model collapses
them to `null`. -/
def jsAddNum (sum : Json) (c : Option Json) : Json :=
  match sum, c with
  | .num a, some (.num b) => .num (a + b)
  | _, _ => .null

/-- Assemble a `StringStats` from the mapped rows (lines 223-227):
`values`, `count` as the left-fold `reduce((sum, v) => sum + v.count, 0)`,
`uniqueCount` as `values.length`. -/
def stringStatsOfValues (values : List StringStatsValue) : StringStats :=
  { values := values
    count := values.foldl (fun sum v => jsAddNum sum v.count) (.num 0)
    uniqueCount := values.length }

/-- One row of the grouped response (lines 219-222):
`{ value: f.attributes[name], count: f.attributes.value_count }`.
Reading a property of a row that is not an object, or indexing a missing
or null `attributes`, throws a `TypeError` in JS; an `attributes` that is
a non-null primitive or array yields `undefined` for both reads
(the string/array index corner is collapsed likewise). -/
def rowValue (name : String) (f : Json) : Except String StringStatsValue :=
  match f with
  | .obj fprops =>
    match alookup fprops "attributes" with
    | some (.obj attrs) => .ok ⟨alookup attrs name, alookup attrs "value_count"⟩
    | some .null => .error "TypeError: cannot read properties of null"
    | none => .error "TypeError: cannot read properties of undefined"
    | some _ => .ok ⟨none, none⟩
  | _ => .error "TypeError: cannot read properties of a non-object row"

/-- `response.features?.map(...) || []` (lines 218-222): missing or null
`features` yields `[]`; a `features` that is neither an array nor
null/missing makes JS call `.map` on a non-function (`TypeError`). -/
def extractGroupRows (resp : Json) : Except String (List Json) :=
  match resp with
  | .null => .error "TypeError: cannot read properties of null"
  | .obj props =>
    match alookup props "features" with
    | some (.arr fs) => .ok fs
    | some .null => .ok []
    | none => .ok []
    | some _ => .error "TypeError: features.map is not a function"
  | _ => .ok []

/-- The whole reduction of one string field's grouped response rows
(lines 218-227). -/
def aggregateStringField (name : String) (features : List Json) : Except String StringStats := do
  let values ← features.mapM (rowValue name)
  return stringStatsOfValues values

/-- The `outStatistics` array of the grouped-count query (lines 209-216):
a single `count` directive over the grouped field, aliased to the fixed
name `"value_count"`. -/
def groupOutStatistics (name : String) : List StatDirective :=
  [stat "count" name "value_count"]

/-! ## URL construction (lines 171-177 and 202-216) -/

/-- The characters `encodeURIComponent` leaves unescaped. -/
def isUriUnreserved (c : Char) : Bool :=
  ('A' ≤ c && c ≤ 'Z') || ('a' ≤ c && c ≤ 'z') || ('0' ≤ c && c ≤ '9') ||
  c == '-' || c == '_' || c == '.' || c == '!' || c == '~' || c == '*' ||
  c == Char.ofNat 39 || c == '(' || c == ')'

/-- Uppercase hex digit for percent-encoding. -/
def hexDigitUpper (n : Nat) : Char :=
  if n < 10 then Char.ofNat (48 + n) else Char.ofNat (55 + n)

/-- The UTF-8 bytes of one character. -/
def utf8Bytes (c : Char) : List Nat :=
  let n := c.toNat
  if n < 0x80 then [n]
  else if n < 0x800 then [0xC0 + n / 64, 0x80 + n % 64]
  else if n < 0x10000 then [0xE0 + n / 4096, 0x80 + (n / 64) % 64, 0x80 + n % 64]
  else [0xF0 + n / 262144, 0x80 + (n / 4096) % 64, 0x80 + (n / 64) % 64, 0x80 + n % 64]

/-- `%XX` encoding of one byte. -/
def percentByte (b : Nat) : String :=
  "%" ++ String.singleton (hexDigitUpper (b / 16)) ++ String.singleton (hexDigitUpper (b % 16))

/-- JS `encodeURIComponent`. -/
def encodeURIComponent (s : String) : String :=
  s.toList.foldl
    (fun acc c =>
      acc ++ (if isUriUnreserved c then String.singleton c
              else String.join ((utf8Bytes c).map percentByte))) ""

/-- Lowercase hex digit (JSON.stringify uses lowercase in `\uXXXX`). -/
def hexDigitLower (n : Nat) : Char :=
  if n < 10 then Char.ofNat (48 + n) else Char.ofNat (87 + n)

/-- `JSON.stringify` escaping of one character inside a string literal. -/
def escapeJsonChar (c : Char) : String :=
  if c == Char.ofNat 34 then "\\\""
  else if c == Char.ofNat 92 then "\\\\"
  else if c == Char.ofNat 8 then "\\b"
  else if c == Char.ofNat 9 then "\\t"
  else if c == Char.ofNat 10 then "\\n"
  else if c == Char.ofNat 12 then "\\f"
  else if c == Char.ofNat 13 then "\\r"
  else if c.toNat < 0x20 then
    "\\u00" ++ String.singleton (hexDigitLower (c.toNat / 16)) ++
      String.singleton (hexDigitLower (c.toNat % 16))
  else String.singleton c

/-- `JSON.stringify` of a string. -/
def jsonQuote (s : String) : String :=
  "\"" ++ String.join (s.toList.map escapeJsonChar) ++ "\""

/-- `JSON.stringify` of one `outStatistics` entry (keys in the insertion
order of the `stat` helper's object literal). -/
def stringifyDirective (d : StatDirective) : String :=
  "\x7b\"statisticType\":" ++ jsonQuote d.statisticType ++
    ",\"onStatisticField\":" ++ jsonQuote d.onStatisticField ++
    ",\"outStatisticFieldName\":" ++ jsonQuote d.outStatisticFieldName ++ "\x7d"

/-- `JSON.stringify` of the `statsDefs` array. -/
def stringifyDirectives (ds : List StatDirective) : String :=
  "[" ++ String.intercalate "," (ds.map stringifyDirective) ++ "]"

/-- The batch `/query` URL (lines 172-177). -/
def buildBatchUrl (featureLayerUrl : String) (statsDefs : List StatDirective) : String :=
  featureLayerUrl ++ "/query?f=json" ++ "&where=1=1" ++ "&returnGeometry=false" ++
    "&outStatistics=" ++ encodeURIComponent (stringifyDirectives statsDefs)

/-- The grouped-count `/query` URL for a string field (lines 202-216);
note the group field name is interpolated unencoded and the `where`
clause is pre-encoded `1%3D1`, exactly as in the source. -/
def buildGroupUrl (featureLayerUrl name : String) : String :=
  featureLayerUrl ++ "/query?f=json" ++ "&where=1%3D1" ++ "&returnGeometry=false" ++
    "&groupByFieldsForStatistics=" ++ name ++ "&outStatistics=" ++
    encodeURIComponent (stringifyDirectives (groupOutStatistics name))

/-! ## Transport and orchestration (lines 66-72, 93-232) -/

/-- The remote server's answer to one `fetch`. -/
structure HttpResponse where
  ok : Bool
  status : Nat
  body : Json

/-- The error message of `getJson` (line 70). -/
def httpErrorMsg (status : Nat) (url : String) : String :=
  s!"HTTP Error: {status} - {url}"

/-- `getJson` (lines 66-72) over a server oracle `fetch`, threading the
trace of requested URLs (the `httpRequestCount` counter is its length;
the counter is incremented before the response status is inspected, so a
failing request is still counted). -/
def getJson (fetch : String → HttpResponse) (url : String) (trace : List String) :
    Except (String × List String) (Json × List String) :=
  let trace := trace ++ [url]
  let res := fetch url
  if res.ok then .ok (res.body, trace)
  else .error (httpErrorMsg res.status url, trace)

/-- The pure effect of one batch iteration on the output, given the
response's attribute map: record creation / directive construction
followed by the merge (lines 135-195 minus the transport). -/
def applyBatch (out : OpenDataStatistics) (batch : List FieldInfo)
    (attrs : List (String × Json)) : OpenDataStatistics :=
  mergeAttrs (processBatchDefs out batch).1 attrs

/-- One iteration of the batch loop (lines 134-196): record creation and
directive construction, the batch `/query` request, and the merge of the
single result row's attribute map. -/
def runOneBatch (fetch : String → HttpResponse) (baseUrl : String)
    (batch : List FieldInfo) (out : OpenDataStatistics) (trace : List String) :
    Except (String × List String) (OpenDataStatistics × List String) :=
  match getJson fetch (buildBatchUrl baseUrl (processBatchDefs out batch).2) trace with
  | .error e => .error e
  | .ok (resp, trace) => .ok (applyBatch out batch (extractAttrs resp), trace)

/-- The batch loop `for (const batch of batches)` (lines 134-196). -/
def runBatches (fetch : String → HttpResponse) (baseUrl : String) :
    List (List FieldInfo) → OpenDataStatistics → List String →
    Except (String × List String) (OpenDataStatistics × List String)
  | [], out, trace => .ok (out, trace)
  | b :: bs, out, trace =>
    match runOneBatch fetch baseUrl b out trace with
    | .error e => .error e
    | .ok (out, trace) => runBatches fetch baseUrl bs out trace

/-- The string-field loop (lines 199-228). -/
def runStringFields (fetch : String → HttpResponse) (baseUrl : String) :
    List FieldInfo → OpenDataStatistics → List String →
    Except (String × List String) (OpenDataStatistics × List String)
  | [], out, trace => .ok (out, trace)
  | f :: rest, out, trace =>
    if f.type == "esriFieldTypeString" then
      match getJson fetch (buildGroupUrl baseUrl f.name) trace with
      | .error e => .error e
      | .ok (response, trace) =>
        match extractGroupRows response with
        | .error m => .error (m, trace)
        | .ok rows =>
          match aggregateStringField f.name rows with
          | .error m => .error (m, trace)
          | .ok st =>
            runStringFields fetch baseUrl rest
              { out with string := jsAssign out.string f.name st } trace
    else runStringFields fetch baseUrl rest out trace

/-- Decoding of one entry of `layerInfo.fields`. -/
def decodeField (j : Json) : Option FieldInfo :=
  match j with
  | .obj props =>
    match alookup props "name", alookup props "type" with
    | some (.str n), some (.str t) => some ⟨n, t⟩
    | _, _ => none
  | _ => none

/-- Decoding of the schema response `layerInfo` into `fields` (line 98).
The JS code does no upfront validation — a malformed schema fails later
with dynamic `TypeError`s (e.g. at `fields.filter`); the model
centralizes those failures as one shape error here.  Every claim
quantifies over well-formed schemas (lists of name/type pairs). -/
def decodeFields (layerInfo : Json) : Option (List FieldInfo) :=
  match layerInfo with
  | .obj props =>
    match alookup props "fields" with
    | some (.arr fs) => fs.mapM decodeField
    | _ => none
  | _ => none

/-- `getOpenDataStyleStatistics` (lines 93-232), over a server oracle:
fetch and decode the schema, filter and chunk the numeric/date/objectid
fields, run the batch loop, then the string-field loop.  Returns the
final output together with the ordered request trace, or the first
error together with the trace up to and including the failing request. -/
def getOpenDataStyleStatistics (fetch : String → HttpResponse) (featureLayerUrl : String) :
    Except (String × List String) (OpenDataStatistics × List String) :=
  match getJson fetch (featureLayerUrl ++ "?f=json") [] with
  | .error e => .error e
  | .ok (layerInfo, trace) =>
    match decodeFields layerInfo with
    | none => .error ("TypeError: fields is not an array of field objects", trace)
    | some fields =>
      let batches := chunk (fields.filter numericOrDateOrObjectIdPred) STATS_BATCH_SIZE
      match runBatches fetch featureLayerUrl batches emptyStats trace with
      | .error e => .error e
      | .ok (output, trace) => runStringFields fetch featureLayerUrl fields output trace

/-! ## Auxiliary definitions used by the statements -/

/-- A two-field numeric bucket used to witness the merge property. -/
def popOut : OpenDataStatistics :=
  { numeric := [("POP", []), ("AGE", [("min", Json.num 1)])],
    string := [], date := [], objectid := [] }

/-- The synthetic attribute map of the merge property (spec §8). -/
def popAttrs : List (String × Json) :=
  [("POP_min", .num 10), ("POP_max", .num 500), ("POP_avg", .num 250),
   ("POP_sum", .num 5000), ("POP_count", .num 20)]

/-- Every request of a trace got a successful response. -/
def TraceOk (fetch : String → HttpResponse) (tr : List String) : Prop :=
  ∀ u ∈ tr, (fetch u).ok = true

/-- The error-propagation invariant of a run outcome: a success means every
performed request succeeded; a failure either is a shape error (all
requests succeeded) or carries the `getJson` message of the last performed
request, every earlier request having succeeded. -/
def GoodOutcome {α : Type} (fetch : String → HttpResponse)
    (r : Except (String × List String) (α × List String)) : Prop :=
  match r with
  | .ok (_, tr) => TraceOk fetch tr
  | .error (msg, tr) =>
    TraceOk fetch tr ∨
    ∃ u, tr.getLast? = some u ∧ (fetch u).ok = false ∧
      msg = httpErrorMsg (fetch u).status u ∧ TraceOk fetch tr.dropLast

/-! ## Association-list lemmas -/

theorem alookup_aset_self {β : Type} (l : List (String × β)) (k : String) (v : β) :
    alookup (aset l k v) k = some v := by
  induction l with
  | nil => simp [aset, alookup]
  | cons p rest ih =>
    obtain ⟨k', v'⟩ := p
    by_cases h : k' = k
    · simp [aset, alookup, h]
    · simp [aset, alookup, h, ih]

theorem alookup_aset_ne {β : Type} (l : List (String × β)) {k k' : String} (v : β)
    (h : k' ≠ k) : alookup (aset l k v) k' = alookup l k' := by
  induction l with
  | nil => simp [aset, alookup, Ne.symm h]
  | cons p rest ih =>
    obtain ⟨k'', v''⟩ := p
    by_cases h2 : k'' = k
    · subst h2
      simp [aset, alookup, Ne.symm h]
    · simp [aset, alookup, h2, ih]

theorem aset_aset_same {β : Type} (l : List (String × β)) (k : String) (v v' : β) :
    aset (aset l k v) k v' = aset l k v' := by
  induction l with
  | nil => simp [aset]
  | cons p rest ih =>
    obtain ⟨k'', v''⟩ := p
    by_cases h : k'' = k
    · simp [aset, h]
    · simp [aset, h, ih]

theorem chunk_nil {α : Type} (size : Nat) : chunk ([] : List α) size = [] := by
  unfold chunk
  split <;> rfl

theorem chunk_cons {α : Type} (a : α) (rest : List α) (size : Nat) (h : size ≠ 0) :
    chunk (a :: rest) size = (a :: rest).take size :: chunk ((a :: rest).drop size) size := by
  conv_lhs => unfold chunk
  rw [dif_neg h]

theorem chunk_eq_nil_iff {α : Type} (arr : List α) (size : Nat) (h : size ≠ 0) :
    chunk arr size = [] ↔ arr = [] := by
  cases arr with
  | nil => simp [chunk_nil]
  | cons a rest => simp [chunk_cons a rest size h]

theorem chunk_flatten {α : Type} :
    ∀ (arr : List α) (size : Nat), size ≠ 0 → (chunk arr size).flatten = arr := by
  intro arr size
  induction arr, size using chunk.induct with
  | case1 arr => intro h; exact absurd rfl h
  | case2 size h => intro _; simp [chunk_nil]
  | case3 size h a rest ih =>
    intro _
    rw [chunk_cons a rest size h, List.flatten_cons, ih h, List.take_append_drop]

theorem mem_chunk {α : Type} :
    ∀ (arr : List α) (size : Nat), size ≠ 0 →
      ∀ b ∈ chunk arr size, b ≠ [] ∧ b.length ≤ size := by
  intro arr size
  induction arr, size using chunk.induct with
  | case1 arr => intro h; exact absurd rfl h
  | case2 size h => intro _; simp [chunk_nil]
  | case3 size h a rest ih =>
    intro _ b hb
    rw [chunk_cons a rest size h, List.mem_cons] at hb
    rcases hb with hb | hb
    · subst hb
      constructor
      · cases size with
        | zero => exact absurd rfl h
        | succ n => simp [List.take_cons]
      · simp [List.length_take]
    · exact ih h b hb

theorem chunk_full {α : Type} :
    ∀ (arr : List α) (size : Nat), size ≠ 0 →
      ∀ i, i + 1 < (chunk arr size).length →
        ∀ b, (chunk arr size)[i]? = some b → b.length = size := by
  intro arr size
  induction arr, size using chunk.induct with
  | case1 arr => intro h; exact absurd rfl h
  | case2 size h => intro _; simp [chunk_nil]
  | case3 size h a rest ih =>
    intro _ i hi b hb
    rw [chunk_cons a rest size h] at hi hb
    cases i with
    | zero =>
      simp only [List.getElem?_cons_zero, Option.some_inj] at hb
      subst hb
      have hdrop : (a :: rest).drop size ≠ [] := by
        intro hd
        rw [List.length_cons, Nat.add_comm] at hi
        have := (chunk_eq_nil_iff ((a :: rest).drop size) size h).mpr hd
        simp [this] at hi
      have hlt : size < (a :: rest).length := by
        have := List.length_drop size (a :: rest)
        have hpos : 0 < ((a :: rest).drop size).length := List.length_pos.mpr hdrop
        omega
      simp only [List.length_cons] at hlt
      simp [List.length_take]
      omega
    | succ j =>
      simp only [List.getElem?_cons_succ] at hb
      simp only [List.length_cons] at hi
      exact ih h j (by omega) b hb

/-- C3: for every non-empty field sequence and every batch size ≥ 1, the
batch planner `chunk` returns batches whose concatenation is exactly the
input; every batch is non-empty of size at most the batch size, and every
batch except possibly the final one has size exactly the batch size
(so each batch is an order-preserving contiguous slice of the input). -/
theorem chunk_batches_spec (arr : List FieldInfo) (size : Nat)
    (_hne : arr ≠ []) (hsz : 1 ≤ size) :
    (chunk arr size).flatten = arr ∧
    (∀ b ∈ chunk arr size, b ≠ [] ∧ b.length ≤ size) ∧
    (∀ i, i + 1 < (chunk arr size).length →
      ∀ b, (chunk arr size)[i]? = some b → b.length = size) := by
  have h : size ≠ 0 := by omega
  exact ⟨chunk_flatten arr size h, mem_chunk arr size h, chunk_full arr size h⟩

theorem chunk_batches_spec_witness :
    (chunk [(⟨"A", "t"⟩ : FieldInfo), ⟨"B", "t"⟩, ⟨"C", "t"⟩] 2).flatten =
        [(⟨"A", "t"⟩ : FieldInfo), ⟨"B", "t"⟩, ⟨"C", "t"⟩] ∧
    (∀ b ∈ chunk [(⟨"A", "t"⟩ : FieldInfo), ⟨"B", "t"⟩, ⟨"C", "t"⟩] 2,
      b ≠ [] ∧ b.length ≤ 2) ∧
    (∀ i, i + 1 < (chunk [(⟨"A", "t"⟩ : FieldInfo), ⟨"B", "t"⟩, ⟨"C", "t"⟩] 2).length →
      ∀ b, (chunk [(⟨"A", "t"⟩ : FieldInfo), ⟨"B", "t"⟩, ⟨"C", "t"⟩] 2)[i]? = some b →
        b.length = 2) :=
  chunk_batches_spec [⟨"A", "t"⟩, ⟨"B", "t"⟩, ⟨"C", "t"⟩] 2 (by decide) (by decide)

/-- C4: field classification is a pure total function of the raw type tag:
the four numeric tags map to `Numeric`, the date tag to `Temporal`, the
OID tag to `RowIdentifier`, the string tag to `Categorical`, and every
other tag to `Unsupported`. -/
theorem classify_spec :
    classify "esriFieldTypeInteger" = .Numeric ∧
    classify "esriFieldTypeSmallInteger" = .Numeric ∧
    classify "esriFieldTypeDouble" = .Numeric ∧
    classify "esriFieldTypeSingle" = .Numeric ∧
    classify "esriFieldTypeDate" = .Temporal ∧
    classify "esriFieldTypeOID" = .RowIdentifier ∧
    classify "esriFieldTypeString" = .Categorical ∧
    ∀ t : String,
      t ∉ (["esriFieldTypeInteger", "esriFieldTypeSmallInteger", "esriFieldTypeDouble",
            "esriFieldTypeSingle", "esriFieldTypeDate", "esriFieldTypeOID",
            "esriFieldTypeString"] : List String) →
      classify t = .Unsupported := by
  refine ⟨by decide, by decide, by decide, by decide, by decide, by decide, by decide, ?_⟩
  intro t ht
  simp only [List.mem_cons, List.not_mem_nil, or_false, not_or] at ht
  obtain ⟨h1, h2, h3, h4, h5, h6, h7⟩ := ht
  simp [classify, isNumericType, h1, h2, h3, h4, h5, h6, h7]

theorem classify_spec_witness :
    ("esriFieldTypeGeometry" : String) ∉
        (["esriFieldTypeInteger", "esriFieldTypeSmallInteger", "esriFieldTypeDouble",
          "esriFieldTypeSingle", "esriFieldTypeDate", "esriFieldTypeOID",
          "esriFieldTypeString"] : List String) ∧
    classify "esriFieldTypeGeometry" = .Unsupported :=
  ⟨by decide, classify_spec.2.2.2.2.2.2.2 "esriFieldTypeGeometry" (by decide)⟩

/-! ## Classification bridging lemmas -/

theorem classify_eq_row_iff (t : String) :
    classify t = .RowIdentifier ↔ t = "esriFieldTypeOID" := by
  unfold classify
  split_ifs with h1 h2 h3 h4 <;> simp only [beq_iff_eq] at * <;> simp_all [isNumericType]

theorem classify_eq_numeric_iff (t : String) :
    classify t = .Numeric ↔ isNumericType t = true := by
  unfold classify
  split_ifs with h1 h2 h3 h4 <;> simp only [beq_iff_eq] at * <;> simp_all [isNumericType]

theorem classify_eq_temporal_iff (t : String) :
    classify t = .Temporal ↔ t = "esriFieldTypeDate" := by
  unfold classify
  split_ifs with h1 h2 h3 h4 <;>
    simp only [isNumericType, Bool.or_eq_true, beq_iff_eq] at * <;>
    first
      | (subst h1; simp)
      | (rcases h2 with ((h | h) | h) | h <;> subst h <;> simp)
      | simp_all

/-- C5: for every field, the directive list has exactly the five
statistics `min,max,avg,sum,count` when the field classifies `Numeric` or
`RowIdentifier`, exactly the three statistics `min,max,count` when it
classifies `Temporal`, and every directive's output alias is exactly
`"<field>_<statistic>"`. -/
theorem directivesFor_spec (f : FieldInfo) :
    ((classify f.type = .Numeric ∨ classify f.type = .RowIdentifier) →
      directivesFor f =
        [stat "min" f.name (f.name ++ "_min"), stat "max" f.name (f.name ++ "_max"),
         stat "avg" f.name (f.name ++ "_avg"), stat "sum" f.name (f.name ++ "_sum"),
         stat "count" f.name (f.name ++ "_count")] ∧
      (directivesFor f).length = 5) ∧
    (classify f.type = .Temporal →
      directivesFor f =
        [stat "min" f.name (f.name ++ "_min"), stat "max" f.name (f.name ++ "_max"),
         stat "count" f.name (f.name ++ "_count")] ∧
      (directivesFor f).length = 3) ∧
    (∀ d ∈ directivesFor f,
      d.onStatisticField = f.name ∧
      d.outStatisticFieldName = f.name ++ "_" ++ d.statisticType) := by
  have hmin : ∀ s : String, s ++ "_min" = s ++ "_" ++ "min" := by
    intro s; rw [String.append_assoc]; congr 1
  have hmax : ∀ s : String, s ++ "_max" = s ++ "_" ++ "max" := by
    intro s; rw [String.append_assoc]; congr 1
  have havg : ∀ s : String, s ++ "_avg" = s ++ "_" ++ "avg" := by
    intro s; rw [String.append_assoc]; congr 1
  have hsum : ∀ s : String, s ++ "_sum" = s ++ "_" ++ "sum" := by
    intro s; rw [String.append_assoc]; congr 1
  have hcount : ∀ s : String, s ++ "_count" = s ++ "_" ++ "count" := by
    intro s; rw [String.append_assoc]; congr 1
  by_cases hOID : f.type = "esriFieldTypeOID"
  · have hlist : directivesFor f =
        [stat "min" f.name (f.name ++ "_min"), stat "max" f.name (f.name ++ "_max"),
         stat "avg" f.name (f.name ++ "_avg"), stat "sum" f.name (f.name ++ "_sum"),
         stat "count" f.name (f.name ++ "_count")] := by
      simp [directivesFor, hOID]
    refine ⟨fun _ => ⟨hlist, by rw [hlist]; rfl⟩, fun ht => ?_, ?_⟩
    · rw [classify_eq_temporal_iff, hOID] at ht
      simp at ht
    · intro d hd
      rw [hlist] at hd
      simp only [List.mem_cons, List.not_mem_nil, or_false] at hd
      rcases hd with rfl | rfl | rfl | rfl | rfl <;>
        exact ⟨rfl, by simp [stat, hmin, hmax, havg, hsum, hcount]⟩
  · by_cases hNum : isNumericType f.type = true
    · have hlist : directivesFor f =
          [stat "min" f.name (f.name ++ "_min"), stat "max" f.name (f.name ++ "_max"),
           stat "avg" f.name (f.name ++ "_avg"), stat "sum" f.name (f.name ++ "_sum"),
           stat "count" f.name (f.name ++ "_count")] := by
        simp [directivesFor, beq_iff_eq, hOID, hNum]
      refine ⟨fun _ => ⟨hlist, by rw [hlist]; rfl⟩, fun ht => ?_, ?_⟩
      · rw [classify_eq_temporal_iff] at ht
        rw [ht] at hNum
        simp [isNumericType] at hNum
      · intro d hd
        rw [hlist] at hd
        simp only [List.mem_cons, List.not_mem_nil, or_false] at hd
        rcases hd with rfl | rfl | rfl | rfl | rfl <;>
          exact ⟨rfl, by simp [stat, hmin, hmax, havg, hsum, hcount]⟩
    · by_cases hDate : f.type = "esriFieldTypeDate"
      · have hlist : directivesFor f =
            [stat "min" f.name (f.name ++ "_min"), stat "max" f.name (f.name ++ "_max"),
             stat "count" f.name (f.name ++ "_count")] := by
          simp [directivesFor, beq_iff_eq, hDate, isNumericType]
        refine ⟨fun hc => ?_, fun _ => ⟨hlist, by rw [hlist]; rfl⟩, ?_⟩
        · rcases hc with hc | hc
          · rw [classify_eq_numeric_iff] at hc
            exact absurd hc hNum
          · rw [classify_eq_row_iff] at hc
            exact absurd hc hOID
        · intro d hd
          rw [hlist] at hd
          simp only [List.mem_cons, List.not_mem_nil, or_false] at hd
          rcases hd with rfl | rfl | rfl <;>
            exact ⟨rfl, by simp [stat, hmin, hmax, hcount]⟩
      · refine ⟨fun hc => ?_, fun ht => ?_, ?_⟩
        · rcases hc with hc | hc
          · rw [classify_eq_numeric_iff] at hc
            exact absurd hc hNum
          · rw [classify_eq_row_iff] at hc
            exact absurd hc hOID
        · rw [classify_eq_temporal_iff] at ht
          exact absurd ht hDate
        · intro d hd
          simp [directivesFor, beq_iff_eq, hOID, hNum, hDate] at hd

theorem directivesFor_spec_witness :
    (classify (FieldInfo.mk "POP" "esriFieldTypeInteger").type = .Numeric ∨
      classify (FieldInfo.mk "POP" "esriFieldTypeInteger").type = .RowIdentifier) ∧
    directivesFor ⟨"POP", "esriFieldTypeInteger"⟩ =
      [stat "min" "POP" "POP_min", stat "max" "POP" "POP_max", stat "avg" "POP" "POP_avg",
       stat "sum" "POP" "POP_sum", stat "count" "POP" "POP_count"] ∧
    (∀ d ∈ directivesFor ⟨"POP", "esriFieldTypeInteger"⟩,
      d.onStatisticField = "POP" ∧
      d.outStatisticFieldName = "POP" ++ "_" ++ d.statisticType) := by
  have h := directivesFor_spec ⟨"POP", "esriFieldTypeInteger"⟩
  refine ⟨Or.inl (by decide), ?_, h.2.2⟩
  have h5 := (h.1 (Or.inl (by decide))).1
  simpa using h5

/-! ## Key-parse lemmas -/

theorem mergeKey_numeric (out : OpenDataStatistics) (key : String) (value : Json)
    (f s : String) (r : StatsRecord) (hm : matchKey key = some (f, s))
    (ho : alookup out.objectid f = none)
    (hp : isProtoMember f = false)
    (hn : alookup out.numeric f = some r) :
    mergeKey out key value = { out with numeric := aset out.numeric f (aset r s value) } := by
  simp [mergeKey, truthyLookup, bucketWrite, hm, hp, ho, hn]

theorem mergeKey_date (out : OpenDataStatistics) (key : String) (value : Json)
    (f s : String) (r : StatsRecord) (hm : matchKey key = some (f, s))
    (ho : alookup out.objectid f = none)
    (hp : isProtoMember f = false)
    (hn : alookup out.numeric f = none)
    (hd : alookup out.date f = some r) :
    mergeKey out key value = { out with date := aset out.date f (aset r s value) } := by
  simp [mergeKey, truthyLookup, bucketWrite, hm, hp, ho, hn, hd]

/-- C1: merging the synthetic batch response
`{"POP_min":10, "POP_max":500, "POP_avg":250, "POP_sum":5000,
"POP_count":20}` for a field `"POP"` holding a fresh numeric record
produces the numeric record `{min:10, max:500, avg:250, sum:5000,
count:20}` for `"POP"`, leaves every other numeric field's record
unchanged, and leaves the objectid, date and string buckets untouched. -/
theorem merge_pop_spec (out : OpenDataStatistics)
    (hobj : alookup out.objectid "POP" = none)
    (hnum : alookup out.numeric "POP" = some ([] : StatsRecord)) :
    alookup (mergeAttrs out popAttrs).numeric "POP" =
      some [("min", Json.num 10), ("max", Json.num 500), ("avg", Json.num 250),
            ("sum", Json.num 5000), ("count", Json.num 20)] ∧
    (∀ g : String, g ≠ "POP" →
      alookup (mergeAttrs out popAttrs).numeric g = alookup out.numeric g) ∧
    (mergeAttrs out popAttrs).objectid = out.objectid ∧
    (mergeAttrs out popAttrs).date = out.date ∧
    (mergeAttrs out popAttrs).string = out.string := by
  have hm1 : matchKey "POP_min" = some ("POP", "min") := by decide
  have hm2 : matchKey "POP_max" = some ("POP", "max") := by decide
  have hm3 : matchKey "POP_avg" = some ("POP", "avg") := by decide
  have hm4 : matchKey "POP_sum" = some ("POP", "sum") := by decide
  have hm5 : matchKey "POP_count" = some ("POP", "count") := by decide
  have expand : mergeAttrs out popAttrs =
      mergeKey (mergeKey (mergeKey (mergeKey (mergeKey out "POP_min" (Json.num 10))
        "POP_max" (Json.num 500)) "POP_avg" (Json.num 250)) "POP_sum" (Json.num 5000))
        "POP_count" (Json.num 20) := rfl
  rw [mergeKey_numeric out "POP_min" (Json.num 10) "POP" "min" [] hm1 hobj (by decide) hnum] at expand
  rw [show aset ([] : StatsRecord) "min" (Json.num 10) = [("min", Json.num 10)] from rfl]
    at expand
  rw [mergeKey_numeric
    (⟨aset out.numeric "POP" [("min", Json.num 10)], out.string, out.date, out.objectid⟩ :
      OpenDataStatistics)
    "POP_max" (Json.num 500) "POP" "max" [("min", Json.num 10)] hm2 hobj (by decide)
    (alookup_aset_self out.numeric "POP" [("min", Json.num 10)])] at expand
  rw [aset_aset_same] at expand
  rw [show aset [("min", Json.num 10)] "max" (Json.num 500) =
    [("min", Json.num 10), ("max", Json.num 500)] from rfl] at expand
  rw [mergeKey_numeric
    (⟨aset out.numeric "POP" [("min", Json.num 10), ("max", Json.num 500)],
      out.string, out.date, out.objectid⟩ : OpenDataStatistics)
    "POP_avg" (Json.num 250) "POP" "avg" [("min", Json.num 10), ("max", Json.num 500)]
    hm3 hobj (by decide)
    (alookup_aset_self out.numeric "POP" [("min", Json.num 10), ("max", Json.num 500)])]
    at expand
  rw [aset_aset_same] at expand
  rw [show aset [("min", Json.num 10), ("max", Json.num 500)] "avg" (Json.num 250) =
    [("min", Json.num 10), ("max", Json.num 500), ("avg", Json.num 250)] from rfl] at expand
  rw [mergeKey_numeric
    (⟨aset out.numeric "POP"
        [("min", Json.num 10), ("max", Json.num 500), ("avg", Json.num 250)],
      out.string, out.date, out.objectid⟩ : OpenDataStatistics)
    "POP_sum" (Json.num 5000) "POP" "sum"
    [("min", Json.num 10), ("max", Json.num 500), ("avg", Json.num 250)] hm4 hobj (by decide)
    (alookup_aset_self out.numeric "POP"
      [("min", Json.num 10), ("max", Json.num 500), ("avg", Json.num 250)])] at expand
  rw [aset_aset_same] at expand
  rw [show aset [("min", Json.num 10), ("max", Json.num 500), ("avg", Json.num 250)]
    "sum" (Json.num 5000) =
    [("min", Json.num 10), ("max", Json.num 500), ("avg", Json.num 250),
     ("sum", Json.num 5000)] from rfl] at expand
  rw [mergeKey_numeric
    (⟨aset out.numeric "POP"
        [("min", Json.num 10), ("max", Json.num 500), ("avg", Json.num 250),
         ("sum", Json.num 5000)],
      out.string, out.date, out.objectid⟩ : OpenDataStatistics)
    "POP_count" (Json.num 20) "POP" "count"
    [("min", Json.num 10), ("max", Json.num 500), ("avg", Json.num 250),
     ("sum", Json.num 5000)] hm5 hobj (by decide)
    (alookup_aset_self out.numeric "POP"
      [("min", Json.num 10), ("max", Json.num 500), ("avg", Json.num 250),
       ("sum", Json.num 5000)])] at expand
  rw [aset_aset_same] at expand
  rw [show aset [("min", Json.num 10), ("max", Json.num 500), ("avg", Json.num 250),
    ("sum", Json.num 5000)] "count" (Json.num 20) =
    [("min", Json.num 10), ("max", Json.num 500), ("avg", Json.num 250),
     ("sum", Json.num 5000), ("count", Json.num 20)] from rfl] at expand
  rw [expand]
  refine ⟨alookup_aset_self _ _ _, fun g hg => alookup_aset_ne _ _ hg, rfl, rfl, rfl⟩

theorem merge_pop_spec_witness :
    alookup (mergeAttrs popOut popAttrs).numeric "POP" =
      some [("min", Json.num 10), ("max", Json.num 500), ("avg", Json.num 250),
            ("sum", Json.num 5000), ("count", Json.num 20)] ∧
    alookup (mergeAttrs popOut popAttrs).numeric "AGE" = some [("min", Json.num 1)] := by
  have h := merge_pop_spec popOut rfl rfl
  exact ⟨h.1, (h.2.1 "AGE" (by decide)).trans rfl⟩

/-! ## C10: totality of the merge step

The claim says a parsed field name present in none of the buckets is
silently skipped and that a matching key writes its suffix into the
matched field's record.  Both parts fail for a parsed field name that
collides with an inherited `Object.prototype` member (e.g. `"toString"`):
the guard `if (output.objectid[fieldName])` is truthy through the
inherited member, so the program takes the `objectid` branch and writes
onto the prototype function instead of skipping or writing the field's
own record.  The claim holds for every parsed field name that is not an
`Object.prototype` member. -/

theorem rowValue_canonical (name : String) (v : Json) (c : Rat)
    (hname : name ≠ "value_count") :
    rowValue name
        (Json.obj [("attributes", Json.obj [(name, v), ("value_count", Json.num c)])]) =
      .ok ⟨some v, some (Json.num c)⟩ := by
  simp [rowValue, alookup, hname]

theorem mapM_rowValue (name : String) (hname : name ≠ "value_count") :
    ∀ rows : List (Json × Rat),
      (rows.map (fun r => Json.obj
          [("attributes", Json.obj [(name, r.1), ("value_count", Json.num r.2)])])).mapM
        (rowValue name) =
      .ok (rows.map (fun r => ⟨some r.1, some (Json.num r.2)⟩)) := by
  intro rows
  induction rows with
  | nil => rfl
  | cons r rest ih =>
    simp only [List.map_cons, List.mapM_cons, rowValue_canonical name r.1 r.2 hname, ih]
    rfl

theorem foldl_jsAddNum (rows : List (Json × Rat)) :
    ∀ acc : Rat,
      (rows.map (fun r => StringStatsValue.mk (some r.1) (some (Json.num r.2)))).foldl
        (fun sum v => jsAddNum sum v.count) (Json.num acc) =
      Json.num (acc + (rows.map Prod.snd).sum) := by
  induction rows with
  | nil => intro acc; simp
  | cons r rest ih =>
    intro acc
    simp only [List.map_cons, List.foldl_cons, List.sum_cons]
    rw [show jsAddNum (Json.num acc)
        (⟨some r.1, some (Json.num r.2)⟩ : StringStatsValue).count = Json.num (acc + r.2)
        from rfl,
      ih (acc + r.2), Rat.add_assoc]

/-- C2: for a grouped-count response whose rows carry a group value and a
numeric count, the string-field aggregation produces one `(value, count)`
entry per row in response order, `count` (the total) equal to the sum of
the row counts, and `uniqueCount` equal to the number of rows; an empty
response yields `{values := [], count := 0, uniqueCount := 0}`; and every
record this aggregation constructs satisfies `count = fold of values
counts` and `uniqueCount = values.length`. -/
theorem aggregateStringField_spec (name : String) (rows : List (Json × Rat))
    (hname : name ≠ "value_count") :
    aggregateStringField name
        (rows.map (fun r => Json.obj
          [("attributes", Json.obj [(name, r.1), ("value_count", Json.num r.2)])])) =
      .ok { values := rows.map (fun r => ⟨some r.1, some (Json.num r.2)⟩),
            count := Json.num ((rows.map Prod.snd).sum),
            uniqueCount := rows.length } ∧
    aggregateStringField name [] =
      .ok { values := [], count := Json.num 0, uniqueCount := 0 } ∧
    (∀ (features : List Json) (st : StringStats),
      aggregateStringField name features = .ok st →
      st.count = st.values.foldl (fun sum v => jsAddNum sum v.count) (Json.num 0) ∧
      st.uniqueCount = st.values.length) := by
  refine ⟨?_, rfl, ?_⟩
  · simp only [aggregateStringField, bind, Except.bind, mapM_rowValue name hname rows]
    have h := foldl_jsAddNum rows 0
    rw [Rat.zero_add] at h
    simp only [stringStatsOfValues, h, List.length_map]
    rfl
  · intro features st hok
    rcases hm : features.mapM (rowValue name) with e | values
    · rw [aggregateStringField, hm] at hok
      exact absurd hok (by simp [bind, Except.bind])
    · rw [aggregateStringField, hm] at hok
      simp only [bind, Except.bind, pure, Except.pure, Except.ok.injEq] at hok
      subst hok
      exact ⟨rfl, rfl⟩

theorem aggregateStringField_spec_witness :
    aggregateStringField "STATE"
        ([((Json.str "CA" : Json), (3 : Rat)), (Json.str "NY", 2), (Json.null, 1)].map
          (fun r => Json.obj
            [("attributes", Json.obj [("STATE", r.1), ("value_count", Json.num r.2)])])) =
      .ok { values := [⟨some (Json.str "CA"), some (Json.num 3)⟩,
                       ⟨some (Json.str "NY"), some (Json.num 2)⟩,
                       ⟨some Json.null, some (Json.num 1)⟩],
            count := Json.num 6, uniqueCount := 3 } ∧
    aggregateStringField "STATE" [] =
      .ok { values := [], count := Json.num 0, uniqueCount := 0 } := by
  have h := aggregateStringField_spec "STATE"
    [(Json.str "CA", 3), (Json.str "NY", 2), (Json.null, 1)] (by decide)
  refine ⟨?_, h.2.1⟩
  have h1 := h.1
  norm_num at h1 ⊢
  exact h1

/-! ## C9: the grouped-count alias

The claim says the fixed alias is distinct from every field name in every
schema.  The alias is the fixed string `"value_count"`, and a schema may
legitimately contain a string field named `"value_count"`; for such a
schema the grouped query for that field groups by `"value_count"` and
aliases its count to the same key, so the group's value and its count are
read from the same attribute.  The claim holds for every schema that has
no field named `"value_count"`. -/

theorem groupAlias_counterexample :
    ¬(∀ f ∈ [(⟨"value_count", "esriFieldTypeString"⟩ : FieldInfo)],
        ∀ d ∈ groupOutStatistics f.name, d.outStatisticFieldName ≠ f.name) ∧
    rowValue "value_count"
        (Json.obj [("attributes", Json.obj [("value_count", Json.num 7)])]) =
      .ok ⟨some (Json.num 7), some (Json.num 7)⟩ := by
  constructor
  · intro h
    exact h _ (List.mem_singleton.mpr rfl) _ (List.mem_singleton.mpr rfl) rfl
  · rfl

/-- C9 (amended): the grouped-count query's sole statistic directive is a
`count` aggregate over the grouped field aliased to the fixed internal
name `"value_count"`; for every schema that contains no field named
`"value_count"`, that alias is distinct from every field name, and a
grouped-response row then yields the group's value and its count from the
two distinct keys without collision. -/
theorem groupAlias_spec :
    (∀ name : String, groupOutStatistics name = [stat "count" name "value_count"]) ∧
    (∀ fields : List FieldInfo, (∀ f ∈ fields, f.name ≠ "value_count") →
      ∀ f ∈ fields, ∀ d ∈ groupOutStatistics f.name, d.outStatisticFieldName ≠ f.name) ∧
    (∀ (name : String) (v : Json) (c : Rat), name ≠ "value_count" →
      rowValue name
          (Json.obj [("attributes", Json.obj [(name, v), ("value_count", Json.num c)])]) =
        .ok ⟨some v, some (Json.num c)⟩) := by
  refine ⟨fun _ => rfl, ?_, fun name v c h => rowValue_canonical name v c h⟩
  intro fields hno f hf d hd
  have : d = stat "count" f.name "value_count" := by
    simpa [groupOutStatistics] using hd
  rw [this]
  intro he
  exact hno f hf he.symm

theorem groupAlias_spec_witness :
    groupOutStatistics "STATE" = [stat "count" "STATE" "value_count"] ∧
    (∀ f ∈ [(⟨"STATE", "esriFieldTypeString"⟩ : FieldInfo)],
      ∀ d ∈ groupOutStatistics f.name, d.outStatisticFieldName ≠ f.name) ∧
    rowValue "STATE"
        (Json.obj [("attributes", Json.obj [("STATE", Json.str "CA"),
          ("value_count", Json.num 3)])]) =
      .ok ⟨some (Json.str "CA"), some (Json.num 3)⟩ :=
  ⟨groupAlias_spec.1 "STATE",
   groupAlias_spec.2.1 [⟨"STATE", "esriFieldTypeString"⟩] (by decide),
   groupAlias_spec.2.2 "STATE" (Json.str "CA") 3 (by decide)⟩

/-! ## Record-creation lemmas -/

theorem traceOk_append (fetch : String → HttpResponse) (tr : List String) (u : String)
    (h : TraceOk fetch tr) (hu : (fetch u).ok = true) : TraceOk fetch (tr ++ [u]) := by
  intro v hv
  rcases List.mem_append.mp hv with h1 | h1
  · exact h v h1
  · rw [List.mem_singleton] at h1
    subst h1
    exact hu

theorem getJson_good (fetch : String → HttpResponse) (url : String) (tr : List String)
    (h : TraceOk fetch tr) : GoodOutcome fetch (getJson fetch url tr) := by
  by_cases hok : (fetch url).ok = true
  · simp only [getJson, hok, if_true, GoodOutcome]
    exact traceOk_append fetch tr url h hok
  · rw [Bool.not_eq_true] at hok
    simp only [getJson, hok, Bool.false_eq_true, if_false, GoodOutcome]
    refine Or.inr ⟨url, List.getLast?_concat tr, hok, rfl, ?_⟩
    rw [List.dropLast_concat]
    exact h

theorem runOneBatch_good (fetch : String → HttpResponse) (baseUrl : String)
    (b : List FieldInfo) (out : OpenDataStatistics) (tr : List String)
    (h : TraceOk fetch tr) : GoodOutcome fetch (runOneBatch fetch baseUrl b out tr) := by
  have hg := getJson_good fetch (buildBatchUrl baseUrl (processBatchDefs out b).2) tr h
  unfold runOneBatch
  cases he : getJson fetch (buildBatchUrl baseUrl (processBatchDefs out b).2) tr with
  | error e =>
    rw [he] at hg
    exact hg
  | ok o =>
    obtain ⟨resp, tr'⟩ := o
    rw [he] at hg
    exact hg

theorem runBatches_good (fetch : String → HttpResponse) (baseUrl : String) :
    ∀ (bs : List (List FieldInfo)) (out : OpenDataStatistics) (tr : List String),
      TraceOk fetch tr → GoodOutcome fetch (runBatches fetch baseUrl bs out tr) := by
  intro bs
  induction bs with
  | nil => intro out tr h; exact h
  | cons b rest ih =>
    intro out tr h
    have hb := runOneBatch_good fetch baseUrl b out tr h
    simp only [runBatches]
    cases ho : runOneBatch fetch baseUrl b out tr with
    | error e =>
      rw [ho] at hb
      exact hb
    | ok o =>
      obtain ⟨out', tr'⟩ := o
      rw [ho] at hb
      exact ih out' tr' hb

theorem runStringFields_good (fetch : String → HttpResponse) (baseUrl : String) :
    ∀ (fields : List FieldInfo) (out : OpenDataStatistics) (tr : List String),
      TraceOk fetch tr → GoodOutcome fetch (runStringFields fetch baseUrl fields out tr) := by
  intro fields
  induction fields with
  | nil => intro out tr h; exact h
  | cons f rest ih =>
    intro out tr h
    simp only [runStringFields]
    by_cases hs : (f.type == "esriFieldTypeString") = true
    · rw [if_pos hs]
      have hg := getJson_good fetch (buildGroupUrl baseUrl f.name) tr h
      split
      · rename_i e heq
        rw [heq] at hg
        exact hg
      · rename_i response trace heq
        rw [heq] at hg
        split
        · exact Or.inl hg
        · split
          · exact Or.inl hg
          · exact ih _ trace hg
    · rw [if_neg hs]
      exact ih out tr h

theorem getOpenDataStyleStatistics_good (fetch : String → HttpResponse) (url : String) :
    GoodOutcome fetch (getOpenDataStyleStatistics fetch url) := by
  have h0 : TraceOk fetch [] := fun u hu => absurd hu (List.not_mem_nil u)
  have hg := getJson_good fetch (url ++ "?f=json") [] h0
  unfold getOpenDataStyleStatistics
  split
  · rename_i e heq
    rw [heq] at hg
    exact hg
  · rename_i layerInfo tr heq
    rw [heq] at hg
    split
    · exact Or.inl hg
    · rename_i fields hd
      have hb := runBatches_good fetch url
        (chunk (fields.filter numericOrDateOrObjectIdPred) STATS_BATCH_SIZE) emptyStats tr hg
      dsimp only
      split
      · rename_i e2 hr
        rw [hr] at hb
        exact hb
      · rename_i out2 tr2 hr
        rw [hr] at hb
        exact runStringFields_good fetch url fields out2 tr2 hb

/-- C7: error propagation.  (a) If the schema fetch returns a non-success
status, the whole computation immediately fails with the single
`getJson` error naming that status and the schema URL, after exactly that
one request — no statistics output is produced.  (b) A successful result
is only produced when every performed request succeeded (no local
recovery of a failed call anywhere).  (c) Every failed run either is a
shape-decoding failure with all performed requests successful, or carries
the `getJson` message naming the status and URL of the last performed
request, all earlier requests having succeeded — so a remote failure
aborts the run at once, with no retry and no partial result. -/
theorem transport_error_spec :
    (∀ (fetch : String → HttpResponse) (url : String),
      (fetch (url ++ "?f=json")).ok = false →
      getOpenDataStyleStatistics fetch url =
        .error (httpErrorMsg (fetch (url ++ "?f=json")).status (url ++ "?f=json"),
          [url ++ "?f=json"])) ∧
    (∀ (fetch : String → HttpResponse) (url : String) (out : OpenDataStatistics)
        (tr : List String),
      getOpenDataStyleStatistics fetch url = .ok (out, tr) →
      ∀ u ∈ tr, (fetch u).ok = true) ∧
    (∀ (fetch : String → HttpResponse) (url : String) (msg : String) (tr : List String),
      getOpenDataStyleStatistics fetch url = .error (msg, tr) →
      (∀ u ∈ tr, (fetch u).ok = true) ∨
      ∃ u, tr.getLast? = some u ∧ (fetch u).ok = false ∧
        msg = httpErrorMsg (fetch u).status u ∧
        ∀ v ∈ tr.dropLast, (fetch v).ok = true) := by
  refine ⟨?_, ?_, ?_⟩
  · intro fetch url hfail
    unfold getOpenDataStyleStatistics getJson
    simp [hfail]
  · intro fetch url out tr hres
    have h := getOpenDataStyleStatistics_good fetch url
    rw [hres] at h
    exact h
  · intro fetch url msg tr hres
    have h := getOpenDataStyleStatistics_good fetch url
    rw [hres] at h
    exact h

theorem transport_error_spec_witness :
    getOpenDataStyleStatistics (fun _ => (⟨false, 500, Json.null⟩ : HttpResponse))
        "http://x" =
      .error (httpErrorMsg
          ((fun _ => (⟨false, 500, Json.null⟩ : HttpResponse)) ("http://x" ++ "?f=json")).status
          ("http://x" ++ "?f=json"),
        ["http://x" ++ "?f=json"]) ∧
    (∀ u ∈ ["http://x" ++ "?f=json"],
      ((fun _ => (⟨true, 200, Json.obj [("fields", Json.arr [])]⟩ : HttpResponse)) u).ok
        = true) ∧
    ((∀ u ∈ ["http://x" ++ "?f=json"],
        ((fun _ => (⟨false, 500, Json.null⟩ : HttpResponse)) u).ok = true) ∨
      ∃ u, (["http://x" ++ "?f=json"] : List String).getLast? = some u ∧
        ((fun _ => (⟨false, 500, Json.null⟩ : HttpResponse)) u).ok = false ∧
        httpErrorMsg 500 ("http://x" ++ "?f=json") =
          httpErrorMsg ((fun _ => (⟨false, 500, Json.null⟩ : HttpResponse)) u).status u ∧
        ∀ v ∈ (["http://x" ++ "?f=json"] : List String).dropLast,
          ((fun _ => (⟨false, 500, Json.null⟩ : HttpResponse)) v).ok = true) := by
  have hres : getOpenDataStyleStatistics
      (fun _ => (⟨true, 200, Json.obj [("fields", Json.arr [])]⟩ : HttpResponse))
      "http://x" = .ok (emptyStats, ["http://x" ++ "?f=json"]) := by
    unfold getOpenDataStyleStatistics
    rw [show getJson
        (fun _ => (⟨true, 200, Json.obj [("fields", Json.arr [])]⟩ : HttpResponse))
        ("http://x" ++ "?f=json") [] =
      .ok (Json.obj [("fields", Json.arr [])], ["http://x" ++ "?f=json"]) from rfl]
    dsimp only
    rw [show decodeFields (Json.obj [("fields", Json.arr [])]) = some [] from rfl]
    dsimp only
    rw [List.filter_nil, chunk_nil]
    rfl
  have hfail : getOpenDataStyleStatistics (fun _ => (⟨false, 500, Json.null⟩ : HttpResponse))
      "http://x" =
      .error (httpErrorMsg 500 ("http://x" ++ "?f=json"), ["http://x" ++ "?f=json"]) :=
    transport_error_spec.1 (fun _ => ⟨false, 500, Json.null⟩) "http://x" rfl
  refine ⟨transport_error_spec.1 (fun _ => ⟨false, 500, Json.null⟩) "http://x" rfl, ?_, ?_⟩
  · exact transport_error_spec.2.1 (fun _ => ⟨true, 200, Json.obj [("fields", Json.arr [])]⟩)
      "http://x" emptyStats ["http://x" ++ "?f=json"] hres
  · exact transport_error_spec.2.2 (fun _ => ⟨false, 500, Json.null⟩) "http://x"
      (httpErrorMsg 500 ("http://x" ++ "?f=json")) ["http://x" ++ "?f=json"] hfail

/-! ## Bucket-membership lemmas for the batch pipeline -/

end FsStats
